import Mathlib

/-!
Verification of the LandSnag realtor provider subsystem: the token-bucket
rate limiter, the fetch/retry loop, the response normalizer
(transformListing), the query-hash function, and the cache-wrapped search
orchestration, embedded shallowly from the TypeScript source
(RealtorProvider and rateLimiter modules).

JavaScript numbers are modelled as rationals plus an explicit NaN
constructor; JavaScript values reaching the modelled code paths are
modelled by the JSVal type (undefined, null, number, string).
-/

/-- Model of a JavaScript number: either NaN or a finite value (modelled as
a rational; the modelled computations stay well within exact double
range so rounding is not modelled). -/
inductive JSNum where
  | nan : JSNum
  | num (q : ℚ) : JSNum
deriving DecidableEq, Repr

/-- Model of a JavaScript value in the positions the provider code reads:
undefined, null, a number, or a string. -/
inductive JSVal where
  | undef : JSVal
  | null : JSVal
  | num (q : ℚ) : JSVal
  | str (s : String) : JSVal
deriving DecidableEq, Repr

/-- JavaScript truthiness for the modelled values: undefined, null, 0 and
the empty string are falsy, everything else is truthy. -/
def jsTruthy : JSVal → Bool
  | .undef => false
  | .null => false
  | .num q => decide (q ≠ 0)
  | .str s => decide (s ≠ "")

/-- The JavaScript expression `a || b`: returns a when a is truthy,
otherwise b. -/
def jsOr (a b : JSVal) : JSVal :=
  if jsTruthy a then a else b

/-- Numeric value of a decimal digit character. -/
def digitVal (c : Char) : ℕ := c.toNat - Char.toNat '0'

/-- Value of a list of decimal digit characters read as a natural number. -/
def digitsToNat (l : List Char) : ℕ :=
  l.foldl (fun acc c => 10 * acc + digitVal c) 0

/-- Value of a list of decimal digit characters read as a fractional part. -/
def fracVal (l : List Char) : ℚ :=
  (digitsToNat l : ℚ) / ((10 : ℚ) ^ l.length)

/-- Model of the JavaScript builtin `parseFloat` on the string fragment the
provider produces (an optional sign, integer digits, an optional dot and
fraction digits; parsing stops at the first character that does not
extend a decimal literal, and yields NaN when no digit was consumed).
Exponent notation and leading whitespace are not exercised by the
modelled code paths and are not modelled.  Split into the optional
leading sign (parseSign) and the unsigned decimal part (parseDecimal),
combined in parseFloatStr. -/
def parseSign (cs : List Char) : ℚ × List Char :=
  match cs with
  | [] => (1, [])
  | c :: t => if c = '-' then (-1, t) else if c = '+' then (1, t) else (1, c :: t)

/-- Unsigned decimal part of the parse: integer digits, an optional dot
and fraction digits; NaN when no digit was consumed. -/
def parseDecimal (cs : List Char) : JSNum :=
  match cs.dropWhile Char.isDigit with
  | '.' :: t =>
    if (cs.takeWhile Char.isDigit).isEmpty && (t.takeWhile Char.isDigit).isEmpty then .nan
    else .num ((digitsToNat (cs.takeWhile Char.isDigit) : ℚ) + fracVal (t.takeWhile Char.isDigit))
  | _ =>
    if (cs.takeWhile Char.isDigit).isEmpty then .nan
    else .num (digitsToNat (cs.takeWhile Char.isDigit) : ℚ)

/-- Application of the parsed sign to the parsed magnitude. -/
def jsNumScale (sgn : ℚ) : JSNum → JSNum
  | .nan => .nan
  | .num q => .num (sgn * q)

def parseFloatStr (s : String) : JSNum :=
  jsNumScale (parseSign s.data).1 (parseDecimal (parseSign s.data).2)

/-- Model of the JavaScript builtin `parseInt(s, 10)`: an optional sign
followed by leading decimal digits; NaN when no digit was consumed. -/
def parseIntNum (s : String) : JSNum :=
  let p := parseSign s.data
  let intDigits := p.2.takeWhile Char.isDigit
  jsNumScale p.1 (if intDigits.isEmpty then .nan else .num (digitsToNat intDigits : ℚ))

/-- Model of `parseFloat(v)` applied to a JavaScript value.  JavaScript
first converts the argument to a string: String(undefined) and
String(null) parse to NaN, and for every finite number n,
parseFloat(String(n)) is n itself, which is modelled directly. -/
def parseFloatVal : JSVal → JSNum
  | .num q => .num q
  | .str s => parseFloatStr s
  | .undef => .nan
  | .null => .nan

/-- The JavaScript expression `x || 0` for a number x: 0 when x is NaN or
0, otherwise x. -/
def jsNumOrZero : JSNum → ℚ
  | .nan => 0
  | .num q => q

/-- Subtraction on JavaScript numbers: NaN propagates. -/
def jsSub (a : JSNum) (d : ℚ) : JSNum :=
  match a with
  | .nan => .nan
  | .num q => .num (q - d)

/-- Addition on JavaScript numbers: NaN propagates. -/
def jsAdd (a : JSNum) (d : ℚ) : JSNum :=
  match a with
  | .nan => .nan
  | .num q => .num (q + d)

/-- The nested coordinate object: `location.address.coordinate`. -/
structure Coordinate where
  lat : JSVal
  lon : JSVal
deriving DecidableEq, Repr

/-- The nested address object: `location.address`. -/
structure Address where
  coordinate : Option Coordinate
deriving DecidableEq, Repr

/-- The nested location object: `listing.location`. -/
structure Location where
  address : Option Address
deriving DecidableEq, Repr

/-- The fields of a raw upstream listing that transformListing reads.
Absent fields are JSVal.undef (respectively none for absent nested
objects). -/
structure RawListing where
  latitude : JSVal
  lat : JSVal
  longitude : JSVal
  lon : JSVal
  location : Option Location
  price : JSVal
  list_price : JSVal
  listing_id : JSVal
  id : JSVal
  beds : JSVal
  baths : JSVal
deriving DecidableEq, Repr

/-- The optional chain `listing.location?.address?.coordinate?.lat`:
undefined as soon as a link is absent. -/
def locCoordLat (l : RawListing) : JSVal :=
  match l.location with
  | none => .undef
  | some loc =>
    match loc.address with
    | none => .undef
    | some a =>
      match a.coordinate with
      | none => .undef
      | some c => c.lat

/-- The optional chain `listing.location?.address?.coordinate?.lon`. -/
def locCoordLon (l : RawListing) : JSVal :=
  match l.location with
  | none => .undef
  | some loc =>
    match loc.address with
    | none => .undef
    | some a =>
      match a.coordinate with
      | none => .undef
      | some c => c.lon

/-- The GeoJSON feature produced by transformListing, restricted to the
fields the specification speaks about.  The properties spread of the
original listing is kept implicitly (the original listing is recoverable
from the input); listing_idVal holds the value before the final
JavaScript `.toString()` call, whose stringification is not needed by
any claim. -/
structure Feature where
  featureType : String
  geometryType : String
  coordinates : List (List (JSNum × JSNum))
  listing_idVal : JSVal
  price : ℤ
  beds : ℚ
  baths : ℚ
  source : String
deriving DecidableEq, Repr

/-- Price computation of transformListing from the already-selected raw
price value (`listing.price || listing.list_price || '0'`):
a string is stripped of every character except digits and the dot and
then parsed with parseFloat; a non-string value v goes through
`v.toString()` followed by parseFloat, which is the identity on finite
numbers and NaN on undefined and null, modelled by parseFloatVal;
an unparsable result defaults to 0 via `|| 0`; finally Math.floor. -/
def priceFromRaw (rawPrice : JSVal) : ℤ :=
  let parsed : JSNum :=
    match rawPrice with
    | .str s => parseFloatStr (String.mk (s.data.filter (fun c => c.isDigit || c = '.')))
    | v => parseFloatVal v
  Int.floor (jsNumOrZero parsed)

/-- Beds computation: `typeof beds === "string" ? parseInt(beds, 10) || 0 :
listing.beds || 0`. -/
def bedsFromRaw : JSVal → ℚ
  | .str s => jsNumOrZero (parseIntNum s)
  | .num q => q
  | .undef => 0
  | .null => 0

/-- Baths computation: `typeof baths === "string" ? parseFloat(baths) || 0 :
listing.baths || 0`. -/
def bathsFromRaw : JSVal → ℚ
  | .str s => jsNumOrZero (parseFloatStr s)
  | .num q => q
  | .undef => 0
  | .null => 0

/-- Model of RealtorProvider.transformListing.  The rnd argument stands
for the string produced by `Math.random().toString(36).substr(2, 9)`,
used only as the listing id fallback. -/
def transformListing (l : RawListing) (rnd : String) : Feature :=
  let latVal := jsOr l.latitude (jsOr l.lat (locCoordLat l))
  let lonVal := jsOr l.longitude (jsOr l.lon (locCoordLon l))
  let lat := parseFloatVal latVal
  let lon := parseFloatVal lonVal
  let d : ℚ := 1 / 10000
  let ring : List (JSNum × JSNum) :=
    [(jsSub lon d, jsSub lat d),
     (jsAdd lon d, jsSub lat d),
     (jsAdd lon d, jsAdd lat d),
     (jsSub lon d, jsAdd lat d),
     (jsSub lon d, jsSub lat d)]
  { featureType := "Feature"
    geometryType := "Polygon"
    coordinates := [ring]
    listing_idVal := jsOr l.listing_id (jsOr l.id (.str rnd))
    price := priceFromRaw (jsOr l.price (jsOr l.list_price (.str "0")))
    beds := bedsFromRaw l.beds
    baths := bathsFromRaw l.baths
    source := "realtor16" }

/-- A raw listing with every field absent. -/
def emptyListing : RawListing :=
  ⟨.undef, .undef, .undef, .undef, none, .undef, .undef, .undef, .undef, .undef, .undef⟩

/-- State of a TokenBucketLimiter: the banked tokens and the timestamp of
the last refill, both in milliseconds (rationals; Date.now values). -/
structure TBState where
  tokens : ℚ
  lastRefill : ℚ
deriving DecidableEq, Repr

/-- The TokenBucketLimiter constructor: starts full, lastRefill = now. -/
def tbInit (cap : ℚ) (now : ℚ) : TBState :=
  ⟨cap, now⟩

/-- Model of TokenBucketLimiter.refill at wall-clock time now: add
elapsed * refillRate tokens, capped at capacity; a non-positive addition
leaves the state unchanged (the guard `tokensToAdd > 0`). -/
def refill (cap rate : ℚ) (s : TBState) (now : ℚ) : TBState :=
  let elapsed := now - s.lastRefill
  let tokensToAdd := elapsed * rate
  if 0 < tokensToAdd then ⟨min cap (s.tokens + tokensToAdd), now⟩ else s

/-- First atomic half of waitForToken (up to its await point, atomic under
the single-threaded JavaScript event loop): refill, and when at least
one token is banked consume it and finish (Bool true); otherwise leave
the refilled state and report that the caller is about to sleep. -/
def waitPhase1 (cap rate : ℚ) (s : TBState) (now : ℚ) : TBState × Bool :=
  let s₁ := refill cap rate s now
  if 1 ≤ s₁.tokens then (⟨s₁.tokens - 1, s₁.lastRefill⟩, true)
  else (s₁, false)

/-- The sleep duration a waiter computes before suspending:
`Math.ceil(tokensNeeded / refillRate)` with tokensNeeded = 1 - tokens. -/
def waitTimeOf (rate : ℚ) (s : TBState) : ℤ :=
  Int.ceil ((1 - s.tokens) / rate)

/-- Second atomic half of waitForToken, run when the sleep ends: refill
again, then decrement the token count by one unconditionally (source
lines 46-47). -/
def waitPhase2 (cap rate : ℚ) (s : TBState) (now : ℚ) : TBState :=
  let s₂ := refill cap rate s now
  ⟨s₂.tokens - 1, s₂.lastRefill⟩

/-- One complete sequential (non-interleaved) waitForToken call: phase 1
at time t₁, and if it suspended, phase 2 at wake-up time t₂. -/
def waitForToken (cap rate : ℚ) (s : TBState) (t₁ t₂ : ℚ) : TBState :=
  let p := waitPhase1 cap rate s t₁
  if p.2 then p.1 else waitPhase2 cap rate p.1 t₂

/-- One upstream HTTP response: status code and (abstracted) JSON body. -/
structure Response where
  status : ℕ
  body : ℕ
deriving DecidableEq, Repr

/-- The error message of the 429-exhaustion throw in fetchPage. -/
def err429Msg (maxRetries : ℕ) : String :=
  "RapidAPI responded with 429 and max retries (" ++ toString maxRetries ++ ") reached."

/-- The error message of the non-2xx throw in fetchPage. -/
def statusMsg (status : ℕ) : String :=
  "RapidAPI responded with " ++ toString status

/-- Model of the retry loop of RealtorProvider.fetchPage.  The attempt
counter runs 0..maxRetries; remaining = maxRetries - attempt counts the
attempts still allowed, and res gives the outcome of each attempt
(Except.error is a network-level exception, Except.ok an HTTP
response).  The result pairs the outcome of the loop with the number of
fetch attempts issued.  Faithful control flow: a 429 retries while
attempts remain, and both a non-2xx status and a network exception land
in the generic catch block, which records the error and retries with
backoff until the attempt counter reaches maxRetries, after which the
last recorded error is thrown.  Sleeping and jitter affect only timing,
not the returned value or the attempt count, and are not modelled.  The
case remaining = 0 is the final allowed attempt: every non-success
outcome there exits the loop through break and throws the error just
recorded (the incoming lastError is always overwritten first, in every
branch). -/
def fetchGo (res : ℕ → Except String Response) (maxRetries : ℕ) :
    ℕ → Option String → Except String ℕ × ℕ
  | 0, _ =>
    match res maxRetries with
    | .error msg => (.error msg, maxRetries + 1)
    | .ok resp =>
      if resp.status = 429 then (.error (err429Msg maxRetries), maxRetries + 1)
      else if 200 ≤ resp.status ∧ resp.status < 300 then (.ok resp.body, maxRetries + 1)
      else (.error (statusMsg resp.status), maxRetries + 1)
  | r + 1, lastError =>
    match res (maxRetries - (r + 1)) with
    | .error msg => fetchGo res maxRetries r (some msg)
    | .ok resp =>
      if resp.status = 429 then fetchGo res maxRetries r lastError
      else if 200 ≤ resp.status ∧ resp.status < 300 then
        (.ok resp.body, (maxRetries - (r + 1)) + 1)
      else fetchGo res maxRetries r (some (statusMsg resp.status))

/-- Model of RealtorProvider.fetchPage for one page: run the retry loop
from attempt 0 with no recorded error. -/
def fetchPage (res : ℕ → Except String Response) (maxRetries : ℕ) :
    Except String ℕ × ℕ :=
  fetchGo res maxRetries maxRetries none

/-- A search parameter value, covering the shapes the search parameter
schema admits: numbers, strings, and numeric arrays (the bbox tuple). -/
inductive JParam where
  | num (q : ℚ) : JParam
  | str (s : String) : JParam
  | numArr (l : List ℚ) : JParam
deriving DecidableEq, Repr

/-- Rendering of a rational used by the modelled serializer. -/
def ratRender (q : ℚ) : String :=
  toString q.num ++ "/" ++ toString q.den

/-- Modelled from the spec: JSON.stringify of a parameter value (the
claims about hashing depend only on serialization being a fixed
deterministic function of the value, so string escaping and JavaScript
number formatting are simplified). -/
def stringifyParam : JParam → String
  | .num q => ratRender q
  | .str s => "\"" ++ s ++ "\""
  | .numArr l => "[" ++ String.intercalate "," (l.map ratRender) ++ "]"

/-- Modelled from the spec: JSON.stringify of an object given its
key/value pairs in property order. -/
def stringifyObj (ps : List (String × JParam)) : String :=
  "\x7b" ++ String.intercalate ","
    (ps.map (fun p => "\"" ++ p.1 ++ "\":" ++ stringifyParam p.2)) ++ "\x7d"

/-- Key order on parameter pairs: compare the property names. -/
def keyLe (a b : String × JParam) : Prop := a.1 ≤ b.1

instance : DecidableRel keyLe := fun a b => inferInstanceAs (Decidable (a.1 ≤ b.1))

instance : IsTotal (String × JParam) keyLe := ⟨fun a b => le_total a.1 b.1⟩

instance : IsTrans (String × JParam) keyLe := ⟨fun _ _ _ h₁ h₂ => le_trans h₁ h₂⟩

/-- Strict key order on parameter pairs. -/
def keyLt (a b : String × JParam) : Prop := a.1 < b.1

instance : IsAntisymm (String × JParam) keyLt :=
  ⟨fun a _ h₁ h₂ => absurd (lt_trans h₁ h₂) (lt_irrefl a.1)⟩

/-- The key-sort normalization of computeHash:
`Object.keys(params).sort().reduce(...)` rebuilds the object with its
properties in ascending key order, which on the key/value pair list is a
sort by key (JavaScript object keys are unique). -/
def sortParams (ps : List (String × JParam)) : List (String × JParam) :=
  ps.insertionSort keyLe

/-- Modelled from the spec: the sha256 hex digest produced by the crypto
module is a fixed deterministic function of the serialized string; the
claims use only that equal inputs give equal digests, so the digest is
modelled as the serialized string itself. -/
def sha256Hex (s : String) : String := s

/-- Model of RealtorProvider.computeHash: serialize the key-sorted
parameter object and digest it. -/
def computeHash (params : List (String × JParam)) : String :=
  sha256Hex (stringifyObj (sortParams params))

/-- Outcome of a JavaScript asynchronous call: a value, or a thrown
exception carried as a message. -/
inductive JSResult (α : Type) where
  | ok (a : α) : JSResult α
  | exn (msg : String) : JSResult α
deriving DecidableEq, Repr

/-- A row of the realtorRawCache table: creation timestamp in
milliseconds and the cached payload.  The payload column stores
JSON.stringify of the feature array and search applies JSON.parse on a
hit; the serialization round trip is modelled as the identity, so the
entry carries the feature list itself. -/
structure CacheEntry where
  createdAt : ℚ
  payload : List Feature
deriving DecidableEq

/-- Observable outcome of one search call after parameter validation: the
returned value or thrown error, whether the upstream fetch sequence was
entered, and how many cache delete and upsert calls were issued. -/
structure SearchTrace where
  result : JSResult (List Feature)
  fetched : Bool
  deleteCalls : ℕ
  storeCalls : ℕ
deriving DecidableEq

/-- Steps 2 and 3 of RealtorProvider.search (the try block): run the fetch
sequence, persist to the cache when at least one feature was collected,
and return the features.  The catch block logs and rethrows, so an
exception from the fetch sequence or from the upsert escapes search
unchanged.  The paginated fetch-and-transform sequence is abstracted
into its outcome fetchR; deletes performed before this phase are passed
through into the trace. -/
def fetchPhase (fetchR : JSResult (List Feature)) (storeR : JSResult Unit)
    (deletes : ℕ) : SearchTrace :=
  match fetchR with
  | .exn e => ⟨.exn e, true, deletes, 0⟩
  | .ok feats =>
    if 0 < feats.length then
      match storeR with
      | .exn e => ⟨.exn e, true, deletes, 1⟩
      | .ok _ => ⟨.ok feats, true, deletes, 1⟩
    else ⟨.ok feats, true, deletes, 0⟩

/-- Model of RealtorProvider.search after parameter validation and
hashing.  lookupR is the outcome of the findUnique call on the cache,
deleteR of the delete call, fetchR of the whole fetch sequence, storeR
of the upsert; now is Date.now in milliseconds and ttlHours the
configured TTL.  None of the three cache calls sits inside a try block
that absorbs its error: a lookup or delete exception propagates before
any fetch, and a store exception is rethrown by the catch block. -/
def searchAfterValidation (lookupR : JSResult (Option CacheEntry))
    (now ttlHours : ℚ) (deleteR : JSResult Unit)
    (fetchR : JSResult (List Feature)) (storeR : JSResult Unit) : SearchTrace :=
  match lookupR with
  | .exn e => ⟨.exn e, false, 0, 0⟩
  | .ok none => fetchPhase fetchR storeR 0
  | .ok (some entry) =>
    if (now - entry.createdAt) / (1000 * 60 * 60) < ttlHours then
      ⟨.ok entry.payload, false, 0, 0⟩
    else
      match deleteR with
      | .exn e => ⟨.exn e, false, 1, 0⟩
      | .ok _ => fetchPhase fetchR storeR 1

/-- The environment variables read by the RealtorProvider constructor and
by the rate limiter module; None models an unset variable. -/
structure Env where
  REALTOR_API_KEY : Option String
  REALTOR_TTL_HOURS : Option String
  REALTOR_MAX_CALLS_PER_MIN : Option String
  REALTOR_MAX_RETRIES : Option String
  REALTOR_INITIAL_BACKOFF_MS : Option String
  PROVIDER_RATE_LIMIT_CAPACITY : Option String
  PROVIDER_RATE_LIMIT_REFILL_RATE : Option String
deriving DecidableEq, Repr

/-- The JavaScript pattern `process.env.X || d`: the default applies when
the variable is unset or empty. -/
def envOrDefault (v : Option String) (d : String) : String :=
  match v with
  | some s => if s = "" then d else s
  | none => d

/-- Configuration of the process-wide ProviderRateLimiter registry
instance: default capacity from PROVIDER_RATE_LIMIT_CAPACITY (parseInt,
default "30") and default refill rate from
PROVIDER_RATE_LIMIT_REFILL_RATE (parseFloat, default "0.5").  Every
TokenBucketLimiter handed out by getRateLimiter is constructed with
exactly this pair, and TokenBucketLimiter interprets the rate as tokens
per millisecond. -/
def providerRateLimiterConfig (env : Env) : JSNum × JSNum :=
  (parseIntNum (envOrDefault env.PROVIDER_RATE_LIMIT_CAPACITY "30"),
   parseFloatStr (envOrDefault env.PROVIDER_RATE_LIMIT_REFILL_RATE "0.5"))

/-- The fields the RealtorProvider constructor computes.  limiter holds
the (capacity, refillRate) pair of the TokenBucketLimiter returned by
getRateLimiter for this provider name. -/
structure RealtorConfig where
  apiKey : String
  ttlHours : JSNum
  maxCallsPerMin : JSNum
  maxRetries : JSNum
  initialBackoffMs : JSNum
  limiter : JSNum × JSNum
deriving DecidableEq, Repr

/-- Model of the RealtorProvider constructor: parse the five REALTOR_*
variables with their defaults and obtain the shared limiter from
getRateLimiter.  The parsed maxCallsPerMin value is stored but appears
in no other computation of the class. -/
def realtorConstructor (env : Env) : RealtorConfig :=
  { apiKey := match env.REALTOR_API_KEY with
      | some s => s
      | none => ""
    ttlHours := parseIntNum (envOrDefault env.REALTOR_TTL_HOURS "24")
    maxCallsPerMin := parseIntNum (envOrDefault env.REALTOR_MAX_CALLS_PER_MIN "30")
    maxRetries := parseIntNum (envOrDefault env.REALTOR_MAX_RETRIES "5")
    initialBackoffMs := parseIntNum (envOrDefault env.REALTOR_INITIAL_BACKOFF_MS "500")
    limiter := providerRateLimiterConfig env }

/-- Helper: the parsed value of a string whose first character is not a
minus sign is NaN or non-negative, so its `|| 0` coercion is
non-negative. -/
theorem parseDecimal_nonneg (cs : List Char) :
    0 ≤ jsNumOrZero (parseDecimal cs) := by
  unfold parseDecimal
  split
  · split
    · simp [jsNumOrZero]
    · simp only [jsNumOrZero, fracVal]
      positivity
  · split
    · simp [jsNumOrZero]
    · simp only [jsNumOrZero]
      positivity

/-- Helper: when the first character is not a minus sign, the parsed sign
is 1. -/
theorem parseSign_fst_eq_one (l : List Char) (h : ∀ c, l.head? = some c → c ≠ '-') :
    (parseSign l).1 = 1 := by
  cases l with
  | nil => rfl
  | cons c t =>
    have hc : c ≠ '-' := h c rfl
    show (if c = '-' then ((-1 : ℚ), t)
          else if c = '+' then ((1 : ℚ), t) else ((1 : ℚ), c :: t)).1 = 1
    rw [if_neg hc]
    by_cases hp : c = '+'
    · rw [if_pos hp]
    · rw [if_neg hp]

/-- Helper: the parsed value of a string whose first character is not a
minus sign is NaN or non-negative, so its `|| 0` coercion is
non-negative. -/
theorem parseFloatStr_nonneg (l : List Char) (h : ∀ c, l.head? = some c → c ≠ '-') :
    0 ≤ jsNumOrZero (parseFloatStr (String.mk l)) := by
  unfold parseFloatStr
  have hd : (String.mk l).data = l := rfl
  rw [hd, parseSign_fst_eq_one l h]
  have := parseDecimal_nonneg (parseSign l).2
  cases hpd : parseDecimal (parseSign l).2 with
  | nan => simp [jsNumScale, jsNumOrZero]
  | num q =>
    rw [hpd] at this
    simpa [jsNumScale, jsNumOrZero] using this

/-- Helper: the price computed from a string raw price is non-negative
(the stripping step removes every sign character). -/
theorem priceFromRaw_str_nonneg (s : String) : 0 ≤ priceFromRaw (.str s) := by
  unfold priceFromRaw
  rw [Int.le_floor]
  push_cast
  apply parseFloatStr_nonneg
  intro c hc
  have hmem : c ∈ s.data.filter (fun c => c.isDigit || c = '.') :=
    List.mem_of_mem_head? hc
  have hpred := (List.mem_filter.mp hmem).2
  intro hcontra
  subst hcontra
  simp at hpred

/-- C8: for every raw listing, including listings whose coordinates are
missing or non-numeric, transformListing returns a Feature whose
geometry is a Polygon made of one ring of exactly 5 coordinate pairs
whose first and last pair are equal; the transform is total, so the
record is never dropped at this stage for missing coordinates. -/
theorem transformListing_closed_polygon (l : RawListing) (rnd : String) :
    (transformListing l rnd).geometryType = "Polygon" ∧
    ∃ ring, (transformListing l rnd).coordinates = [ring] ∧
      ring.length = 5 ∧ ring.head? = ring.getLast? := by
  exact ⟨rfl, _, rfl, rfl, rfl⟩

/-- C9 (amended): properties.price is always the floor of the parsed
cleaned raw price (string prices stripped to digits and dots, absent or
unparsable prices defaulting to 0); it is non-negative whenever the
selected raw price value is a string or a non-negative number.  A
negative number supplied in the price field passes through to a
negative integer. -/
theorem transformListing_price_pipeline (l : RawListing) (rnd : String) :
    (transformListing l rnd).price
        = priceFromRaw (jsOr l.price (jsOr l.list_price (.str "0"))) ∧
    (∀ s, jsOr l.price (jsOr l.list_price (.str "0")) = .str s →
        0 ≤ (transformListing l rnd).price) ∧
    (∀ q, jsOr l.price (jsOr l.list_price (.str "0")) = .num q → 0 ≤ q →
        0 ≤ (transformListing l rnd).price) := by
  refine ⟨rfl, ?_, ?_⟩
  · intro s hs
    have : (transformListing l rnd).price = priceFromRaw (.str s) := by
      rw [show (transformListing l rnd).price
            = priceFromRaw (jsOr l.price (jsOr l.list_price (.str "0"))) from rfl, hs]
    rw [this]
    exact priceFromRaw_str_nonneg s
  · intro q hq hq0
    have : (transformListing l rnd).price = priceFromRaw (.num q) := by
      rw [show (transformListing l rnd).price
            = priceFromRaw (jsOr l.price (jsOr l.list_price (.str "0"))) from rfl, hq]
    rw [this]
    unfold priceFromRaw
    rw [Int.le_floor]
    simpa [parseFloatVal, jsNumOrZero] using hq0

/-- A listing whose price field holds the number -250000. -/
def negPriceListing : RawListing :=
  ⟨.undef, .undef, .undef, .undef, none, .num (-250000), .undef, .undef, .undef, .undef, .undef⟩

/-- C9 counterexample: a raw listing with price -250000 (a number) is
transformed to properties.price = -250000, which is not a non-negative
integer. -/
theorem transformListing_price_negative_cex :
    (transformListing negPriceListing "r").price = -250000 ∧
    ¬ 0 ≤ (transformListing negPriceListing "r").price := by
  constructor
  · decide
  · decide

/-- A listing whose price field is a currency-formatted string. -/
def strPriceListing : RawListing :=
  ⟨.undef, .undef, .undef, .undef, none, .str "$1,250.50", .undef, .undef, .undef, .undef, .undef⟩

/-- Witness for C9: the string-price branch of the pipeline theorem at a
concrete currency-formatted listing. -/
theorem transformListing_price_pipeline_witness :
    0 ≤ (transformListing strPriceListing "r").price :=
  (transformListing_price_pipeline strPriceListing "r").2.1 "$1,250.50" rfl

/-- C10: when the price field is falsy (0, the empty string, null or
absent), transformListing computes the price from the fallback chain
`list_price || "0"` instead. -/
theorem transformListing_price_fallback (l : RawListing) (rnd : String)
    (h : jsTruthy l.price = false) :
    (transformListing l rnd).price = priceFromRaw (jsOr l.list_price (.str "0")) := by
  show priceFromRaw (jsOr l.price (jsOr l.list_price (.str "0"))) = _
  unfold jsOr
  rw [h]
  simp

/-- A listing with price 0 and list_price 500000. -/
def zeroPriceListing : RawListing :=
  ⟨.undef, .undef, .undef, .undef, none, .num 0, .num 500000, .undef, .undef, .undef, .undef⟩

/-- Witness for C10: price 0 with list_price 500000 yields
properties.price = 500000. -/
theorem transformListing_price_fallback_witness :
    (transformListing zeroPriceListing "r").price = 500000 := by
  rw [transformListing_price_fallback zeroPriceListing "r" (by decide)]
  decide

/-- Helper: two pairwise properties combine pointwise. -/
theorem pairwise_conj {α : Type} {R S : α → α → Prop} :
    ∀ {l : List α}, l.Pairwise R → l.Pairwise S →
      l.Pairwise fun a b => R a b ∧ S a b
  | [], _, _ => .nil
  | _ :: _, .cons hR hRt, .cons hS hSt =>
    .cons (fun b hb => ⟨hR b hb, hS b hb⟩) (pairwise_conj hRt hSt)

/-- C5: for every two search parameter objects containing identical
key/value pairs (a permutation of each other, with the distinct keys a
JavaScript object guarantees), computeHash is identical regardless of
key insertion order. -/
theorem computeHash_key_order_invariant (p₁ p₂ : List (String × JParam))
    (hperm : p₁.Perm p₂) (hkeys : p₁.Pairwise fun a b => a.1 ≠ b.1) :
    computeHash p₁ = computeHash p₂ := by
  have hsymm : ∀ {a b : String × JParam}, a.1 ≠ b.1 → b.1 ≠ a.1 :=
    fun hab => Ne.symm hab
  have hp₁ : (sortParams p₁).Perm p₁ := List.perm_insertionSort keyLe p₁
  have hp₂ : (sortParams p₂).Perm p₂ := List.perm_insertionSort keyLe p₂
  have hk₁ : (sortParams p₁).Pairwise fun a b => a.1 ≠ b.1 :=
    (hp₁.pairwise_iff hsymm).mpr hkeys
  have hk₂ : (sortParams p₂).Pairwise fun a b => a.1 ≠ b.1 :=
    (hp₂.pairwise_iff hsymm).mpr ((hperm.pairwise_iff hsymm).mp hkeys)
  have hs₁ : (sortParams p₁).Sorted keyLe := List.sorted_insertionSort keyLe p₁
  have hs₂ : (sortParams p₂).Sorted keyLe := List.sorted_insertionSort keyLe p₂
  have hlt₁ : (sortParams p₁).Sorted keyLt :=
    (pairwise_conj hs₁ hk₁).imp fun hab => lt_of_le_of_ne hab.1 hab.2
  have hlt₂ : (sortParams p₂).Sorted keyLt :=
    (pairwise_conj hs₂ hk₂).imp fun hab => lt_of_le_of_ne hab.1 hab.2
  have hsp : (sortParams p₁).Perm (sortParams p₂) :=
    hp₁.trans (hperm.trans hp₂.symm)
  have heq : sortParams p₁ = sortParams p₂ :=
    List.eq_of_perm_of_sorted hsp hlt₁ hlt₂
  unfold computeHash
  rw [heq]

/-- Search parameters written city-first. -/
def paramsCityFirst : List (String × JParam) :=
  [("city", .str "Charlotte"), ("state", .str "NC")]

/-- The same search parameters written state-first. -/
def paramsStateFirst : List (String × JParam) :=
  [("state", .str "NC"), ("city", .str "Charlotte")]

/-- Witness for C5: the two insertion orders of the same city/state query
hash identically. -/
theorem computeHash_key_order_invariant_witness :
    computeHash paramsCityFirst = computeHash paramsStateFirst :=
  computeHash_key_order_invariant paramsCityFirst paramsStateFirst
    (by decide) (by decide)

/-- Helper: a 429 response with attempts remaining leads to another loop
iteration with the same recorded error. -/
theorem fetchGo_step_429 (res : ℕ → Except String Response) (M r : ℕ)
    (le : Option String) (b : ℕ) (h : res (M - (r + 1)) = .ok ⟨429, b⟩) :
    fetchGo res M (r + 1) le = fetchGo res M r le := by
  conv_lhs => rw [fetchGo]
  rw [h]
  simp

/-- Helper: a response with a 2xx status returns its body, with the total
attempt count attempt + 1. -/
theorem fetchGo_step_success (res : ℕ → Except String Response) (M r : ℕ)
    (le : Option String) (s b : ℕ) (h : res (M - r) = .ok ⟨s, b⟩)
    (hok : 200 ≤ s ∧ s < 300) (h429 : s ≠ 429) :
    fetchGo res M r le = (.ok b, (M - r) + 1) := by
  cases r with
  | zero =>
    conv_lhs => rw [fetchGo]
    rw [Nat.sub_zero] at h
    rw [h]
    simp [h429, hok]
  | succ r =>
    conv_lhs => rw [fetchGo]
    rw [h]
    simp [h429, hok]

/-- Helper: a non-2xx, non-429 response with attempts remaining is caught
by the generic catch block and leads to another loop iteration with the
upstream error recorded. -/
theorem fetchGo_step_non2xx (res : ℕ → Except String Response) (M r : ℕ)
    (le : Option String) (s b : ℕ) (h : res (M - (r + 1)) = .ok ⟨s, b⟩)
    (hnok : ¬(200 ≤ s ∧ s < 300)) (h429 : s ≠ 429) :
    fetchGo res M (r + 1) le = fetchGo res M r (some (statusMsg s)) := by
  conv_lhs => rw [fetchGo]
  rw [h]
  simp [h429, hnok]

/-- C6: three consecutive 429 responses followed by a 200 success, with
maxRetries at least 3, produce exactly 4 fetch attempts and return the
body of the fourth response. -/
theorem fetchPage_429_then_success (maxRetries : ℕ)
    (res : ℕ → Except String Response) (b0 b1 b2 b : ℕ)
    (hm : 3 ≤ maxRetries)
    (h0 : res 0 = .ok ⟨429, b0⟩) (h1 : res 1 = .ok ⟨429, b1⟩)
    (h2 : res 2 = .ok ⟨429, b2⟩) (h3 : res 3 = .ok ⟨200, b⟩) :
    fetchPage res maxRetries = (.ok b, 4) := by
  obtain ⟨m, rfl⟩ : ∃ m, maxRetries = m + 3 := ⟨maxRetries - 3, by omega⟩
  unfold fetchPage
  have s1 : fetchGo res (m + 3) (m + 3) none = fetchGo res (m + 3) (m + 2) none :=
    fetchGo_step_429 res (m + 3) (m + 2) none b0
      (by rw [show m + 3 - (m + 2 + 1) = 0 by omega]; exact h0)
  have s2 : fetchGo res (m + 3) (m + 2) none = fetchGo res (m + 3) (m + 1) none :=
    fetchGo_step_429 res (m + 3) (m + 1) none b1
      (by rw [show m + 3 - (m + 1 + 1) = 1 by omega]; exact h1)
  have s3 : fetchGo res (m + 3) (m + 1) none = fetchGo res (m + 3) m none :=
    fetchGo_step_429 res (m + 3) m none b2
      (by rw [show m + 3 - (m + 1) = 2 by omega]; exact h2)
  have s4 : fetchGo res (m + 3) m none = (.ok b, (m + 3 - m) + 1) :=
    fetchGo_step_success res (m + 3) m none 200 b
      (by rw [show m + 3 - m = 3 by omega]; exact h3)
      (by omega) (by omega)
  rw [s1, s2, s3, s4, show m + 3 - m = 3 by omega]

/-- The response script for the C6 witness: 429 on the first three
attempts, success with body 11 on the fourth. -/
def res429Script : ℕ → Except String Response :=
  fun n => if n < 3 then .ok ⟨429, 0⟩ else .ok ⟨200, 11⟩

/-- Witness for C6: with maxRetries 5 the script of three 429s and a
success yields the success body after exactly 4 attempts. -/
theorem fetchPage_429_then_success_witness :
    fetchPage res429Script 5 = (.ok 11, 4) :=
  fetchPage_429_then_success 5 res429Script 0 0 0 11
    (by decide) rfl rfl rfl rfl

/-- The response script for the C1 counterexample: a 500 on the first
attempt, then a success. -/
def res500Script : ℕ → Except String Response :=
  fun n => if n = 0 then .ok ⟨500, 0⟩ else .ok ⟨200, 7⟩

/-- C1 counterexample: with a 500 on attempt 0 and a success on attempt 1,
fetchPage issues a second attempt and returns the success body instead
of failing immediately after one attempt: the upstream-error throw for a
non-2xx status is caught by the same catch block that handles network
errors, and the page is retried. -/
theorem fetchPage_500_retried_cex :
    fetchPage res500Script 5 = (.ok 7, 2) ∧
    (fetchPage res500Script 5).2 ≠ 1 := by
  constructor
  · rfl
  · decide

/-- C1 (amended): a non-2xx, non-429 status does not fail the page
immediately; the thrown upstream error lands in the generic catch block
and the page is retried with backoff like a network error, so when
every attempt returns such a status the loop runs all maxRetries + 1
attempts and then fails with the upstream error of the last attempt. -/
theorem fetchPage_non2xx_exhausts (maxRetries : ℕ) (s bs : ℕ → ℕ)
    (h : ∀ n, ¬(200 ≤ s n ∧ s n < 300) ∧ s n ≠ 429) :
    fetchPage (fun n => .ok ⟨s n, bs n⟩) maxRetries
      = (.error (statusMsg (s maxRetries)), maxRetries + 1) := by
  suffices gen : ∀ r le, fetchGo (fun n => .ok ⟨s n, bs n⟩) maxRetries r le
      = (.error (statusMsg (s maxRetries)), maxRetries + 1) from gen maxRetries none
  intro r
  induction r with
  | zero =>
    intro le
    unfold fetchGo
    simp [(h maxRetries).1, (h maxRetries).2]
  | succ r ih =>
    intro le
    rw [fetchGo_step_non2xx (fun n => .ok ⟨s n, bs n⟩) maxRetries r le
      (s (maxRetries - (r + 1))) (bs (maxRetries - (r + 1))) rfl
      (h (maxRetries - (r + 1))).1 (h (maxRetries - (r + 1))).2]
    exact ih (some (statusMsg (s (maxRetries - (r + 1)))))

/-- Witness for C1: every attempt returns 500 with maxRetries 2; the loop
runs 3 attempts and fails with the upstream 500 error. -/
theorem fetchPage_non2xx_exhausts_witness :
    fetchPage (fun _ => .ok ⟨500, 0⟩) 2 = (.error (statusMsg 500), 3) :=
  fetchPage_non2xx_exhausts 2 (fun _ => 500) (fun _ => 0)
    (fun _ => (⟨by decide, by decide⟩ :
      ¬(200 ≤ (500 : ℕ) ∧ (500 : ℕ) < 300) ∧ (500 : ℕ) ≠ 429))

/-- Helper: evaluation of parseIntNum on the literal string 60. -/
theorem parseIntNum_eval_60 : parseIntNum "60" = .num 60 := by
  simp +decide [parseIntNum, show "60".data = ['6', '0'] from rfl, parseSign, jsNumScale,
    digitsToNat, digitVal,
    show List.takeWhile Char.isDigit ['6', '0'] = ['6', '0'] from by decide]

/-- Helper: evaluation of parseIntNum on the literal string 1. -/
theorem parseIntNum_eval_1 : parseIntNum "1" = .num 1 := by
  simp +decide [parseIntNum, show "1".data = ['1'] from rfl, parseSign, jsNumScale,
    digitsToNat, digitVal,
    show List.takeWhile Char.isDigit ['1'] = ['1'] from by decide]

/-- Helper: evaluation of parseFloatStr on the literal string 0.5, the
default refill rate. -/
theorem parseFloatStr_eval_half : parseFloatStr "0.5" = .num (1 / 2) := by
  simp +decide [parseFloatStr, show "0.5".data = ['0', '.', '5'] from rfl, parseSign,
    parseDecimal, jsNumScale, digitsToNat, digitVal, fracVal,
    show List.dropWhile Char.isDigit ['0', '.', '5'] = ['.', '5'] from by decide,
    show List.takeWhile Char.isDigit ['0', '.', '5'] = ['0'] from by decide,
    show List.takeWhile Char.isDigit ['5'] = ['5'] from by decide]
  norm_num

/-- An environment that sets REALTOR_MAX_CALLS_PER_MIN to 60 and nothing
else. -/
def envCalls60 : Env :=
  ⟨none, none, some "60", none, none, none, none⟩

/-- An environment that sets REALTOR_MAX_CALLS_PER_MIN to 1 and nothing
else. -/
def envCalls1 : Env :=
  ⟨none, none, some "1", none, none, none, none⟩

/-- C2 counterexample: two environments that differ only in
REALTOR_MAX_CALLS_PER_MIN (60 versus 1) produce providers whose token
buckets have exactly the same configuration, so the variable does not
determine the refill rate; in both the refill rate is 0.5 token per
millisecond, taken from the PROVIDER_RATE_LIMIT_REFILL_RATE default. -/
theorem realtorLimiter_ignores_maxCallsPerMin_cex :
    (realtorConstructor envCalls60).maxCallsPerMin
        ≠ (realtorConstructor envCalls1).maxCallsPerMin ∧
    (realtorConstructor envCalls60).limiter = (realtorConstructor envCalls1).limiter ∧
    (realtorConstructor envCalls60).limiter.2 = .num (1 / 2) := by
  refine ⟨?_, rfl, ?_⟩
  · show parseIntNum "60" ≠ parseIntNum "1"
    rw [parseIntNum_eval_60, parseIntNum_eval_1]
    decide
  · show parseFloatStr "0.5" = .num (1 / 2)
    exact parseFloatStr_eval_half

/-- C2 (amended): the constructor parses REALTOR_MAX_CALLS_PER_MIN
(default 30) but never uses it; the token bucket behind the realtor provider
fetches is configured solely by PROVIDER_RATE_LIMIT_CAPACITY (default
30) and PROVIDER_RATE_LIMIT_REFILL_RATE (default 0.5, consumed by
TokenBucketLimiter as tokens per millisecond). -/
theorem realtorLimiter_from_provider_env (env : Env) (v : Option String) :
    (realtorConstructor { env with REALTOR_MAX_CALLS_PER_MIN := v }).limiter
        = (realtorConstructor env).limiter ∧
    (realtorConstructor env).limiter
        = (parseIntNum (envOrDefault env.PROVIDER_RATE_LIMIT_CAPACITY "30"),
           parseFloatStr (envOrDefault env.PROVIDER_RATE_LIMIT_REFILL_RATE "0.5")) ∧
    (realtorConstructor env).maxCallsPerMin
        = parseIntNum (envOrDefault env.REALTOR_MAX_CALLS_PER_MIN "30") :=
  ⟨rfl, rfl, rfl⟩

/-- Helper: the fetch phase records the delete count it is given. -/
theorem fetchPhase_deleteCalls (fetchR : JSResult (List Feature))
    (storeR : JSResult Unit) (d : ℕ) :
    (fetchPhase fetchR storeR d).deleteCalls = d := by
  unfold fetchPhase
  cases fetchR with
  | exn e => rfl
  | ok feats =>
    dsimp only
    split
    · cases storeR with
      | exn e => rfl
      | ok u => rfl
    · rfl

/-- Helper: the fetch phase always enters the upstream fetch sequence. -/
theorem fetchPhase_fetched (fetchR : JSResult (List Feature))
    (storeR : JSResult Unit) (d : ℕ) :
    (fetchPhase fetchR storeR d).fetched = true := by
  unfold fetchPhase
  cases fetchR with
  | exn e => rfl
  | ok feats =>
    dsimp only
    split
    · cases storeR with
      | exn e => rfl
      | ok u => rfl
    · rfl

/-- C4: a cache entry strictly younger than the TTL is served as-is with
no fetch and no deletion; an entry at least as old as the TTL triggers
exactly one delete call and (when the delete succeeds) the search
proceeds to a fresh fetch, never returning the expired payload. -/
theorem search_cache_ttl (entry : CacheEntry) (now ttl : ℚ)
    (delR : JSResult Unit) (fetchR : JSResult (List Feature))
    (storeR : JSResult Unit) :
    ((now - entry.createdAt) / (1000 * 60 * 60) < ttl →
      searchAfterValidation (.ok (some entry)) now ttl delR fetchR storeR
        = ⟨.ok entry.payload, false, 0, 0⟩) ∧
    (ttl ≤ (now - entry.createdAt) / (1000 * 60 * 60) →
      (searchAfterValidation (.ok (some entry)) now ttl delR fetchR storeR).deleteCalls
          = 1 ∧
      (delR = .ok () →
        searchAfterValidation (.ok (some entry)) now ttl delR fetchR storeR
            = fetchPhase fetchR storeR 1 ∧
        (searchAfterValidation (.ok (some entry)) now ttl delR fetchR storeR).fetched
            = true)) := by
  constructor
  · intro h
    unfold searchAfterValidation
    dsimp only
    rw [if_pos h]
  · intro h
    have hn : ¬ (now - entry.createdAt) / (1000 * 60 * 60) < ttl := not_lt.mpr h
    unfold searchAfterValidation
    dsimp only
    rw [if_neg hn]
    cases delR with
    | exn e =>
      exact ⟨rfl, fun hcontra => by exact absurd hcontra (by simp)⟩
    | ok u =>
      refine ⟨fetchPhase_deleteCalls fetchR storeR 1, fun _ => ⟨rfl, ?_⟩⟩
      exact fetchPhase_fetched fetchR storeR 1

/-- Witness for C4: an entry created at time 0 and looked up one hour
later with a 24 hour TTL is served from the cache with no fetch and no
delete. -/
theorem search_cache_ttl_witness :
    searchAfterValidation (.ok (some ⟨0, []⟩)) 3600000 24 (.ok ()) (.ok []) (.ok ())
      = ⟨.ok [], false, 0, 0⟩ :=
  (search_cache_ttl ⟨0, []⟩ 3600000 24 (.ok ()) (.ok []) (.ok ())).1 (by norm_num)

/-- C7 counterexample: when the cache lookup throws, search throws that
same error and never reaches the upstream fetch, contradicting the
claim that cache errors are treated as a miss and search still fetches
and returns results. -/
theorem search_cache_error_cex :
    (searchAfterValidation (.exn "db down") 0 24 (.ok ()) (.ok []) (.ok ())).result
        = .exn "db down" ∧
    (searchAfterValidation (.exn "db down") 0 24 (.ok ()) (.ok []) (.ok ())).fetched
        = false := by
  exact ⟨rfl, rfl⟩

/-- C7 (amended): cache collaborator errors are not caught anywhere in
search: a lookup error aborts search before any fetch, a delete error
on a stale entry aborts search before any fetch, and a store error
after a successful non-empty fetch is rethrown by the catch block, so
cache unavailability fails the search instead of degrading it to
always-fetch. -/
theorem search_cache_error_propagates (msg : String) (now ttl : ℚ)
    (delR : JSResult Unit) (fetchR : JSResult (List Feature))
    (storeR : JSResult Unit) (entry : CacheEntry) :
    (searchAfterValidation (.exn msg) now ttl delR fetchR storeR
        = ⟨.exn msg, false, 0, 0⟩) ∧
    (ttl ≤ (now - entry.createdAt) / (1000 * 60 * 60) →
      searchAfterValidation (.ok (some entry)) now ttl (.exn msg) fetchR storeR
        = ⟨.exn msg, false, 1, 0⟩) ∧
    (∀ feats, 0 < feats.length →
      searchAfterValidation (.ok none) now ttl delR (.ok feats) (.exn msg)
        = ⟨.exn msg, true, 0, 1⟩) := by
  refine ⟨rfl, ?_, ?_⟩
  · intro h
    unfold searchAfterValidation
    dsimp only
    rw [if_neg (not_lt.mpr h)]
  · intro feats hlen
    unfold searchAfterValidation fetchPhase
    dsimp only
    rw [if_pos hlen]

/-- A concrete feature used by the C7 witness payload. -/
def sampleFeature : Feature :=
  transformListing emptyListing "r"

/-- Witness for C7: a failing upsert after a successful one-feature fetch
makes search throw the cache error even though the fetch succeeded. -/
theorem search_cache_error_propagates_witness :
    searchAfterValidation (.ok none) 0 24 (.ok ()) (.ok [sampleFeature]) (.exn "cache down")
      = ⟨.exn "cache down", true, 0, 1⟩ :=
  (search_cache_error_propagates "cache down" 0 24 (.ok ()) (.ok [sampleFeature])
    (.ok ()) ⟨0, []⟩).2.2 [sampleFeature] (by simp)

/-- C3: evaluation of the token bucket at a concrete interleaved trace.
A bucket of capacity 2 and refill rate 0.5 token per millisecond starts
full at time 0; two sequential waitForToken calls at time 0 drain it to
0 tokens.  Two further callers then run concurrently: both execute the
first half of waitForToken at time 0 (each finds 0 tokens, computes the
same 2 ms sleep, and suspends), and both wake at time 2 and execute the
second half.  The first waker consumes the single refilled token; the
second finds 0 tokens, and the unconditional decrement drives the count
to -1, violating the invariant that tokens stay non-negative and that a
whole token is consumed. -/
theorem tokenBucket_goes_negative :
    (waitPhase1 2 (1/2) (waitForToken 2 (1/2) (waitForToken 2 (1/2)
        (tbInit 2 0) 0 0) 0 0) 0).2 = false ∧
    (waitPhase1 2 (1/2)
        (waitPhase1 2 (1/2) (waitForToken 2 (1/2) (waitForToken 2 (1/2)
          (tbInit 2 0) 0 0) 0 0) 0).1 0).2 = false ∧
    waitTimeOf (1/2)
        (waitPhase1 2 (1/2)
          (waitPhase1 2 (1/2) (waitForToken 2 (1/2) (waitForToken 2 (1/2)
            (tbInit 2 0) 0 0) 0 0) 0).1 0).1 = 2 ∧
    (waitPhase2 2 (1/2)
        (waitPhase2 2 (1/2)
          (waitPhase1 2 (1/2)
            (waitPhase1 2 (1/2) (waitForToken 2 (1/2) (waitForToken 2 (1/2)
              (tbInit 2 0) 0 0) 0 0) 0).1 0).1 2) 2).tokens = -1 := by
  have h1 : waitForToken 2 (1/2) (tbInit 2 0) 0 0 = ⟨1, 0⟩ := by
    norm_num [waitForToken, waitPhase1, waitPhase2, refill, tbInit]
  have h2 : waitForToken 2 (1/2) ⟨1, 0⟩ 0 0 = ⟨0, 0⟩ := by
    norm_num [waitForToken, waitPhase1, waitPhase2, refill]
  have h3 : waitPhase1 2 (1/2) ⟨0, 0⟩ 0 = (⟨0, 0⟩, false) := by
    norm_num [waitPhase1, refill]
  have h4 : waitTimeOf (1/2) ⟨0, 0⟩ = 2 := by
    norm_num [waitTimeOf]
  have h5 : waitPhase2 2 (1/2) ⟨0, 0⟩ 2 = ⟨0, 2⟩ := by
    norm_num [waitPhase2, refill, min_def]
  have h6 : waitPhase2 2 (1/2) ⟨0, 2⟩ 2 = ⟨-1, 2⟩ := by
    norm_num [waitPhase2, refill]
  refine ⟨?_, ?_, ?_, ?_⟩ <;> simp only [h1, h2, h3, h4, h5, h6]
